import Mathlib

/-!
Verification of the zeval-service job-queue and state-management layer.

The definitions below are a shallow embedding of the repository's store layer
(`src/database/operations.py`, `src/database/connection.py`) and of the API
routes that sit directly on top of it (`src/api/routers/tasks.py`,
`src/api/routers/documents.py`).  The SQLite tables `documents` and
`eval_tasks` are modelled as Lean lists of rows held in a `Store` value;
every SQL statement of the source is translated into an explicit function on
`Store`.  Timestamps are modelled as natural-number clock ticks, fed in as
explicit arguments wherever the source calls `datetime.now()`.  Real-valued
score columns are modelled as integers: no claim performs arithmetic on them,
they are only stored and compared for equality.
-/

/-- `TaskStatus` from `src/models/task.py`: a four-valued string enum. -/
inductive TaskStatus
  | pending
  | running
  | completed
  | failed
  deriving DecidableEq

/-- The `.value` of the Python string enum. -/
def TaskStatus.value : TaskStatus → String
  | .pending => "pending"
  | .running => "running"
  | .completed => "completed"
  | .failed => "failed"

/-- `TaskStatus(s)` on a string, as used by the routers: returns `none` where
Python raises `ValueError`. -/
def parseTaskStatus (s : String) : Option TaskStatus :=
  if s = "pending" then some .pending
  else if s = "running" then some .running
  else if s = "completed" then some .completed
  else if s = "failed" then some .failed
  else none

/-- A row of the `documents` table (`src/models/document.py`,
`src/database/connection.py`). -/
structure Document where
  id : Nat
  filename : String
  file_path : String
  file_size : Nat
  total_pages : Nat
  file_hash : String
  uploaded_at : Nat
  eval_count : Nat
  deriving DecidableEq

/-- A row of the `eval_tasks` table (`src/models/task.py`,
`src/database/connection.py`).  `start_page`/`end_page` are `Int` because the
API accepts arbitrary Python ints for them. -/
structure EvalTask where
  id : Nat
  document_id : Nat
  start_page : Option Int
  end_page : Option Int
  llm_uri : String
  num_test_cases : Nat
  status : TaskStatus
  created_at : Nat
  progress : Nat
  started_at : Option Nat
  completed_at : Option Nat
  result_path : Option String
  dataset_path : Option String
  avg_score : Option Int
  metrics_summary : Option (List (String × Int))
  error : Option String
  deriving DecidableEq

/-- The SQLite database: both tables in rowid (insertion) order, plus the
AUTOINCREMENT counters that produce `cursor.lastrowid`. -/
structure Store where
  documents : List Document := []
  tasks : List EvalTask := []
  next_document_id : Nat := 1
  next_task_id : Nat := 1
  deriving DecidableEq

-- ============================================================
-- Document operations (src/database/operations.py)
-- ============================================================

/-- `get_document_by_id`: `SELECT * FROM documents WHERE id = ?`, `fetchone`. -/
def get_document_by_id (s : Store) (document_id : Nat) : Option Document :=
  s.documents.find? (fun d => decide (d.id = document_id))

/-- `get_document_by_hash`: `SELECT * FROM documents WHERE file_hash = ?`. -/
def get_document_by_hash (s : Store) (file_hash : String) : Option Document :=
  s.documents.find? (fun d => decide (d.file_hash = file_hash))

/-- `increment_eval_count`:
`UPDATE documents SET eval_count = eval_count + 1 WHERE id = ?`. -/
def increment_eval_count (s : Store) (document_id : Nat) : Store :=
  { s with documents := s.documents.map (fun d =>
      if d.id = document_id then { d with eval_count := d.eval_count + 1 } else d) }

/-- `create_document` (the db-layer insert): `INSERT INTO documents ...`,
returning `cursor.lastrowid`.  `uploaded_at` defaults to the current clock. -/
def create_document (s : Store) (filename file_path : String)
    (file_size total_pages : Nat) (file_hash : String) (now : Nat) : Nat × Store :=
  let d : Document :=
    { id := s.next_document_id, filename := filename, file_path := file_path,
      file_size := file_size, total_pages := total_pages, file_hash := file_hash,
      uploaded_at := now, eval_count := 0 }
  (d.id, { s with documents := s.documents ++ [d],
                  next_document_id := s.next_document_id + 1 })

-- ============================================================
-- EvalTask operations (src/database/operations.py)
-- ============================================================

/-- The row inserted by `create_task`'s `INSERT INTO eval_tasks`: the listed
columns are supplied, `status` is `'pending'`, every other column takes its
schema default (`progress` 0, `created_at` the current clock, the rest NULL). -/
def newTask (id document_id : Nat) (start_page end_page : Option Int)
    (llm_uri : String) (num_test_cases : Nat) (now : Nat) : EvalTask :=
  { id := id, document_id := document_id, start_page := start_page,
    end_page := end_page, llm_uri := llm_uri, num_test_cases := num_test_cases,
    status := .pending, created_at := now, progress := 0, started_at := none,
    completed_at := none, result_path := none, dataset_path := none,
    avg_score := none, metrics_summary := none, error := none }

/-- A store-level exception (SQLite raising inside an operation). -/
inductive DBError
  | storeFailure
  deriving DecidableEq

/-- `create_task` in `src/database/operations.py`: inserts the pending row and
commits, then calls `increment_eval_count(document_id)` with no exception
handler around it.  `bumpOk = false` models the underlying store raising inside
the bump: the exception propagates out of `create_task`, while the task row —
committed before the bump — remains in the store. -/
def create_task (s : Store) (document_id : Nat) (llm_uri : String)
    (num_test_cases : Nat) (start_page end_page : Option Int) (now : Nat)
    (bumpOk : Bool) : Except DBError Nat × Store :=
  let t := newTask s.next_task_id document_id start_page end_page llm_uri
    num_test_cases now
  let s1 : Store := { s with tasks := s.tasks ++ [t],
                             next_task_id := s.next_task_id + 1 }
  if bumpOk then (.ok t.id, increment_eval_count s1 document_id)
  else (.error .storeFailure, s1)

/-- `get_task_by_id`: `SELECT * FROM eval_tasks WHERE id = ?`, `fetchone`. -/
def get_task_by_id (s : Store) (task_id : Nat) : Option EvalTask :=
  s.tasks.find? (fun t => decide (t.id = task_id))

/-- The optional arguments of `update_task_status`; `none` mirrors the Python
default `None`, meaning "do not touch this column". -/
structure TaskPatch where
  status : Option TaskStatus := none
  progress : Option Nat := none
  started_at : Option Nat := none
  completed_at : Option Nat := none
  result_path : Option String := none
  dataset_path : Option String := none
  avg_score : Option Int := none
  metrics_summary : Option (List (String × Int)) := none
  error : Option String := none
  deriving DecidableEq

/-- The effect of `update_task_status`'s generated
`UPDATE eval_tasks SET ... WHERE id = ?` on a single row: each column is
overwritten exactly when the corresponding argument `is not None`.
(`metrics_summary` is stored via `json.dumps` in the source; the serialized
text is modelled by the value itself.) -/
def applyPatch (p : TaskPatch) (t : EvalTask) : EvalTask :=
  { t with
    status := match p.status with | some v => v | none => t.status
    progress := match p.progress with | some v => v | none => t.progress
    started_at := match p.started_at with | some v => some v | none => t.started_at
    completed_at := match p.completed_at with | some v => some v | none => t.completed_at
    result_path := match p.result_path with | some v => some v | none => t.result_path
    dataset_path := match p.dataset_path with | some v => some v | none => t.dataset_path
    avg_score := match p.avg_score with | some v => some v | none => t.avg_score
    metrics_summary := match p.metrics_summary with | some v => some v | none => t.metrics_summary
    error := match p.error with | some v => some v | none => t.error }

/-- `update_task_status`: builds the sparse `UPDATE ... WHERE id = ?` and runs
it.  A task id with no matching row makes the UPDATE touch zero rows; the
function still returns normally (the source has no error path here).  An
all-`None` call returns early in the source; `applyPatch` of the empty patch
is the identity, so the behaviour coincides. -/
def update_task_status (s : Store) (task_id : Nat) (p : TaskPatch) : Store :=
  { s with tasks := s.tasks.map (fun t =>
      if t.id = task_id then applyPatch p t else t) }

-- ============================================================
-- The claim protocol (claim_next_pending_task, src/database/operations.py)
-- ============================================================

/-- What the claim query
`SELECT * FROM eval_tasks WHERE status = 'pending' ORDER BY created_at ASC LIMIT 1`
guarantees about a returned row: it is a pending row of the table whose
`created_at` is minimal among pending rows.  The query has no further ORDER BY
key, so which row is returned when several pending rows share the minimal
`created_at` is not specified by the SQL. -/
def IsOldestPending (s : Store) (t : EvalTask) : Prop :=
  t ∈ s.tasks ∧ t.status = .pending ∧
    ∀ u ∈ s.tasks, u.status = .pending → t.created_at ≤ u.created_at

instance (s : Store) (t : EvalTask) : Decidable (IsOldestPending s t) := by
  unfold IsOldestPending
  infer_instance

/-- A selection function is a faithful model of the claim query iff every row
it returns satisfies `IsOldestPending` and it returns `none` exactly on a
table with no pending row. -/
def ValidSelect (sel : Store → Option EvalTask) : Prop :=
  (∀ s t, sel s = some t → IsOldestPending s t) ∧
    (∀ s, sel s = none → ∀ u ∈ s.tasks, u.status ≠ .pending)

/-- One possible behaviour of the claim query: the first pending row (in rowid
order) of minimal `created_at`. -/
def selectFirstOldest (s : Store) : Option EvalTask :=
  (s.tasks.filter (fun t => decide (t.status = .pending))).argmin (·.created_at)

/-- The row mutation performed by the claim's
`UPDATE eval_tasks SET status = 'running', started_at = ?, progress = 0 WHERE id = ?`,
and equally the in-memory mutation of the returned object
(`task.status = RUNNING; task.started_at = datetime.now(); task.progress = 0`). -/
def claimedRow (t : EvalTask) (now : Nat) : EvalTask :=
  { t with status := .running, started_at := some now, progress := 0 }

/-- The claim's UPDATE applied to the store.  Note the WHERE clause is only
`id = ?`: it does not re-check that the row is still pending. -/
def claimWrite (s : Store) (task_id : Nat) (now : Nat) : Store :=
  { s with tasks := s.tasks.map (fun t =>
      if t.id = task_id then claimedRow t now else t) }

/-- `claim_next_pending_task` run to completion by a single caller with no
interference: SELECT (via a selection function `sel` modelling the query),
UPDATE with a first `datetime.now()` reading `now1`, commit, then build the
returned object from the already-fetched row with a second `datetime.now()`
reading `now2`. -/
def claim_next_pending_task (sel : Store → Option EvalTask) (s : Store)
    (now1 now2 : Nat) : Option EvalTask × Store :=
  match sel s with
  | none => (none, s)
  | some row => (some (claimedRow row now2), claimWrite s row.id now1)

-- ============================================================
-- API routes (src/api/routers/tasks.py, src/api/routers/documents.py)
-- ============================================================

/-- HTTPException outcomes raised by the routers. -/
inductive RouterError
  | notFound (detail : String)
  | badRequest (detail : String)
  | internal (detail : String)
  deriving DecidableEq

/-- Python truthiness of an `Optional[str]` (`if req.status:` treats both
`None` and `""` as absent). -/
def truthy (o : Option String) : Option String :=
  match o with
  | some s => if s = "" then none else some s
  | none => none

/-- Python `x or d` on an `Optional[int]` value `x`: `None` and `0` are both
falsy and give the default. -/
def orInt (v : Option Int) (d : Int) : Int :=
  match v with
  | none => d
  | some n => if n = 0 then d else n

/-- Python `x or d` on an optional non-negative count. -/
def orNat (v : Option Nat) (d : Nat) : Nat :=
  match v with
  | none => d
  | some n => if n = 0 then d else n

/-- `UpdateTaskRequest` from `src/api/routers/tasks.py` (all fields optional;
the route exposes no `progress` field). -/
structure UpdateTaskRequest where
  status : Option String := none
  started_at : Option String := none
  completed_at : Option String := none
  result_path : Option String := none
  dataset_path : Option String := none
  avg_score : Option Int := none
  metrics_summary : Option (List (String × Int)) := none
  error : Option String := none
  deriving DecidableEq

/-- Steps 2–3 of the `update_task` route: validate the status string and parse
the two timestamp strings (`fromIso` models `datetime.fromisoformat`, `none`
where it raises `ValueError`), producing the argument list passed on to
`update_task_status`.  Note the route guards use Python truthiness. -/
def buildPatch (fromIso : String → Option Nat) (req : UpdateTaskRequest) :
    Except RouterError TaskPatch := do
  let status ← match truthy req.status with
    | none => pure (none : Option TaskStatus)
    | some v => match parseTaskStatus v with
      | none => Except.error (.badRequest "invalid status value")
      | some ts => pure (some ts)
  let started ← match truthy req.started_at with
    | none => pure (none : Option Nat)
    | some v => match fromIso v with
      | none => Except.error (.badRequest "bad started_at")
      | some n => pure (some n)
  let completed ← match truthy req.completed_at with
    | none => pure (none : Option Nat)
    | some v => match fromIso v with
      | none => Except.error (.badRequest "bad completed_at")
      | some n => pure (some n)
  pure { status := status, progress := none, started_at := started,
         completed_at := completed, result_path := req.result_path,
         dataset_path := req.dataset_path, avg_score := req.avg_score,
         metrics_summary := req.metrics_summary, error := req.error }

/-- The `PATCH /tasks/{task_id}` route (`update_task` in
`src/api/routers/tasks.py`): 404 if the task does not exist, 400 on a bad
status or timestamp string, otherwise apply `update_task_status` and echo
`req.status or task.status.value`.  The pair's second component is the store
after the call (unchanged on every error path). -/
def update_task_route (fromIso : String → Option Nat) (s : Store)
    (task_id : Nat) (req : UpdateTaskRequest) :
    Except RouterError String × Store :=
  match get_task_by_id s task_id with
  | none => (.error (.notFound "task not found"), s)
  | some task =>
    match buildPatch fromIso req with
    | .error e => (.error e, s)
    | .ok p =>
      (.ok ((truthy req.status).getD task.status.value),
        update_task_status s task_id p)

/-- `CreateTaskRequest` from `src/api/routers/tasks.py`. -/
structure CreateTaskRequest where
  document_id : Nat
  start_page : Option Int := none
  end_page : Option Int := none
  llm_uri : Option String := none
  num_test_cases : Option Nat := none
  deriving DecidableEq

/-- The `POST /tasks/create` route (`create_task` in
`src/api/routers/tasks.py`): 404 on an unknown document; if either page bound
was supplied, validate `start = req.start_page or 1` and
`end = req.end_page or document.total_pages` (Python `or`, so a supplied `0`
silently becomes the default) against the document; then insert via the
db-layer `create_task` with the *raw* request bounds.  `envLlm`/`envNum` are
the environment defaults, `bumpOk` the eval-count bump outcome. -/
def create_task_route (envLlm : String) (envNum : Nat) (s : Store)
    (req : CreateTaskRequest) (now : Nat) (bumpOk : Bool) :
    Except RouterError Nat × Store :=
  match get_document_by_id s req.document_id with
  | none => (.error (.notFound "document not found"), s)
  | some doc =>
    let pageErr : Option RouterError :=
      if req.start_page.isSome || req.end_page.isSome then
        let startP := orInt req.start_page 1
        let stopP := orInt req.end_page (doc.total_pages : Int)
        if startP < 1 || stopP > (doc.total_pages : Int) then
          some (.badRequest "page range outside document")
        else if startP > stopP then
          some (.badRequest "start page after end page")
        else none
      else none
    match pageErr with
    | some e => (.error e, s)
    | none =>
      let llm := (truthy req.llm_uri).getD envLlm
      let num := orNat req.num_test_cases envNum
      match create_task s req.document_id llm num req.start_page req.end_page
          now bumpOk with
      | (.ok task_id, s1) => (.ok task_id, s1)
      | (.error _, s1) => (.error (.internal "eval count bump failed"), s1)

/-- The two distinct outcomes of the document-upload route: a fresh insert
versus the dedup "already exists" response. -/
inductive PutOutcome
  | created (document_id : Nat)
  | alreadyExists (document_id : Nat)
  deriving DecidableEq

/-- The document id carried by either outcome. -/
def PutOutcome.docId : PutOutcome → Nat
  | .created i => i
  | .alreadyExists i => i

/-- `file.filename.lower().endswith('.pdf')`, computed over the character
list: lowercase every character and compare the last four with ".pdf". -/
def isPdfFilename (name : String) : Bool :=
  (name.data.map Char.toLower).reverse.take 4 == ['f', 'd', 'p', '.']

/-- The storage path chosen in step 5 of the upload route.  The source splices
the first 8 hash characters between the filename's stem and its extension; the
exact stem/extension split is immaterial to every claim, only that the path is
derived from filename and hash. -/
def safe_filename (filename h : String) : String :=
  filename ++ "_" ++ ⟨h.data.take 8⟩

/-- The `POST /documents` route (`create_document` in
`src/api/routers/documents.py`).  `hashFn` models the MD5 digest of the raw
bytes, `pageCount` the PDF page-count derivation (`none` where PyPDF2 fails),
`maxBytes` the configured size limit.  The result carries the outcome, the
store after the call, and the list of files present on disk afterwards that
the call wrote (on the unreadable-document path the file is written and then
unlinked, so nothing remains). -/
def create_document_route (hashFn : List Nat → String)
    (pageCount : List Nat → Option Nat) (maxBytes : Nat) (s : Store)
    (filename : String) (content : List Nat) (now : Nat) :
    Except RouterError PutOutcome × Store × List String :=
  if ¬ isPdfFilename filename then
    (.error (.badRequest "only PDF supported"), s, [])
  else if content.length > maxBytes then
    (.error (.badRequest "file too large"), s, [])
  else
    let h := hashFn content
    match get_document_by_hash s h with
    | some d => (.ok (.alreadyExists d.id), s, [])
    | none =>
      let path := safe_filename filename h
      match pageCount content with
      | none => (.error (.badRequest "unreadable PDF"), s, [])
      | some pages =>
        let (did, s1) := create_document s filename path content.length pages h now
        (.ok (.created did), s1, [path])

-- ============================================================
-- Derived notions and concrete scenarios used in the theorems
-- ============================================================

instance {ε α : Type} [DecidableEq ε] [DecidableEq α] :
    DecidableEq (Except ε α) := fun a b =>
  match a, b with
  | .ok x, .ok y =>
    if h : x = y then .isTrue (by rw [h])
    else .isFalse (fun hc => h (Except.ok.inj hc))
  | .error x, .error y =>
    if h : x = y then .isTrue (by rw [h])
    else .isFalse (fun hc => h (Except.error.inj hc))
  | .ok _, .error _ => .isFalse (fun hc => Except.noConfusion hc)
  | .error _, .ok _ => .isFalse (fun hc => Except.noConfusion hc)

/-- A sequence of `update_task_status` calls, applied in order. -/
def applyUpdates (ops : List (Nat × TaskPatch)) (s : Store) : Store :=
  ops.foldl (fun acc op => update_task_status acc op.1 op.2) s

/-- Between two versions of a task row: every nullable result column that was
populated in the first is still populated in the second. -/
def keepsPopulated (t t' : EvalTask) : Prop :=
  (t.started_at.isSome → t'.started_at.isSome) ∧
  (t.completed_at.isSome → t'.completed_at.isSome) ∧
  (t.result_path.isSome → t'.result_path.isSome) ∧
  (t.dataset_path.isSome → t'.dataset_path.isSome) ∧
  (t.avg_score.isSome → t'.avg_score.isSome) ∧
  (t.metrics_summary.isSome → t'.metrics_summary.isSome) ∧
  (t.error.isSome → t'.error.isSome)

/-- A single fresh pending task. -/
def soloTask : EvalTask :=
  { id := 1, document_id := 1, start_page := none, end_page := none,
    llm_uri := "m", num_test_cases := 3, status := .pending, created_at := 0,
    progress := 0, started_at := none, completed_at := none,
    result_path := none, dataset_path := none, avg_score := none,
    metrics_summary := none, error := none }

/-- A store holding exactly one pending task. -/
def soloStore : Store :=
  { documents := [], tasks := [soloTask], next_document_id := 1,
    next_task_id := 2 }

/-- Worker 1's SELECT in the interleaved two-worker execution.  In the source,
`claim_next_pending_task`'s SELECT runs outside any write transaction (the
Python sqlite3 driver only opens the implicit transaction at the UPDATE), so
both workers can execute their SELECT before either executes its UPDATE; the
UPDATE's WHERE clause checks only `id`, not that the row is still pending, so
both UPDATEs then succeed. -/
def raceRead1 : Option EvalTask := selectFirstOldest soloStore

/-- Worker 2's SELECT, issued before worker 1's UPDATE commits: it sees the
same single pending row. -/
def raceRead2 : Option EvalTask := selectFirstOldest soloStore

/-- The store after both workers' UPDATEs (worker 1 at tick 10, worker 2 at
tick 20). -/
def raceStoreAfter : Store := claimWrite (claimWrite soloStore 1 10) 1 20

/-- Worker 1's return value: its fetched row mutated in memory, with its own
second `now()` reading (tick 11). -/
def raceReturn1 : Option EvalTask := raceRead1.map (fun r => claimedRow r 11)

/-- Worker 2's return value (second `now()` reading at tick 21). -/
def raceReturn2 : Option EvalTask := raceRead2.map (fun r => claimedRow r 21)

/-- Two pending tasks sharing one `created_at` tick: first by rowid. -/
def tieTask1 : EvalTask := { soloTask with id := 1, created_at := 5 }

/-- Two pending tasks sharing one `created_at` tick: second by rowid. -/
def tieTask2 : EvalTask := { soloTask with id := 2, created_at := 5 }

/-- A store whose pending queue holds exactly the two tied tasks. -/
def tieStore : Store :=
  { documents := [], tasks := [tieTask1, tieTask2], next_document_id := 1,
    next_task_id := 3 }

/-- A task that has reached the terminal `completed` state, with all result
columns populated. -/
def doneTask : EvalTask :=
  { id := 1, document_id := 1, start_page := none, end_page := none,
    llm_uri := "m", num_test_cases := 3, status := .completed, created_at := 0,
    progress := 100, started_at := some 1, completed_at := some 2,
    result_path := some "r.xlsx", dataset_path := some "d.json",
    avg_score := some 87, metrics_summary := some [("faithfulness", 90)],
    error := none }

/-- A store holding only the terminal task. -/
def doneStore : Store :=
  { documents := [], tasks := [doneTask], next_document_id := 1,
    next_task_id := 2 }

/-- An update that tries to move a task's status back to `running`. -/
def demotePatch : TaskPatch := { status := some .running }

/-- An update touching a single unrelated column. -/
def lonePatch : TaskPatch := { progress := some 50 }

/-- A 20-page document on file. -/
def c5Doc : Document :=
  { id := 1, filename := "doc.pdf", file_path := "p", file_size := 10,
    total_pages := 20, file_hash := "h", uploaded_at := 0, eval_count := 0 }

/-- A store holding only the 20-page document. -/
def c5Store : Store :=
  { documents := [c5Doc], tasks := [], next_document_id := 2,
    next_task_id := 1 }

/-- A creation request whose `start_page` of 0 violates
`1 ≤ startPage ≤ endPage ≤ totalPages`. -/
def c5Req : CreateTaskRequest :=
  { document_id := 1, start_page := some 0, end_page := some 10 }

/-- Three pending tasks created at ticks 1 < 2 < 3. -/
def fifoA : EvalTask := { soloTask with id := 1, created_at := 1 }

/-- Second of the three FIFO tasks. -/
def fifoB : EvalTask := { soloTask with id := 2, created_at := 2 }

/-- Third of the three FIFO tasks. -/
def fifoC : EvalTask := { soloTask with id := 3, created_at := 3 }

/-- A store whose queue is exactly the three FIFO tasks. -/
def fifoStore : Store :=
  { documents := [], tasks := [fifoA, fifoB, fifoC], next_document_id := 1,
    next_task_id := 4 }

/-- A concrete stand-in for the MD5 digest in witnesses (the dedup argument
holds for an arbitrary digest function). -/
def wHash : List Nat → String := fun c => "h" ++ toString c.length

/-- A concrete stand-in for the PDF page-count derivation in witnesses. -/
def wPages : List Nat → Option Nat := fun _ => some 3

/-- A concrete stand-in for `datetime.fromisoformat` in witnesses: the tick
spelled in decimal. -/
def wIso : String → Option Nat := fun v => v.toNat?

/-- The store produced by a first concrete upload, used to witness the dedup
argument. -/
def wStore1 : Store :=
  (create_document_route wHash wPages 100 {} "a.pdf" [1, 2] 9).2.1

-- ============================================================
-- Helper lemmas
-- ============================================================

@[simp]
theorem applyPatch_id (p : TaskPatch) (t : EvalTask) :
    (applyPatch p t).id = t.id := rfl

@[simp]
theorem claimedRow_id (t : EvalTask) (n : Nat) : (claimedRow t n).id = t.id := rfl

@[simp]
theorem claimedRow_status (t : EvalTask) (n : Nat) :
    (claimedRow t n).status = .running := rfl

@[simp]
theorem claimedRow_created_at (t : EvalTask) (n : Nat) :
    (claimedRow t n).created_at = t.created_at := rfl

theorem update_row_id (p : TaskPatch) (i : Nat) (t : EvalTask) :
    (if t.id = i then applyPatch p t else t).id = t.id := by
  by_cases h : t.id = i <;> simp [h]

theorem get_task_by_id_update (s : Store) (i task_id : Nat) (p : TaskPatch) :
    get_task_by_id (update_task_status s i p) task_id
      = (get_task_by_id s task_id).map
          (fun t => if t.id = i then applyPatch p t else t) := by
  unfold get_task_by_id update_task_status
  rw [List.find?_map]
  have hpred : ((fun t : EvalTask => decide (t.id = task_id)) ∘
        fun t => if t.id = i then applyPatch p t else t)
      = (fun t : EvalTask => decide (t.id = task_id)) := by
    funext t
    simp [Function.comp, update_row_id]
  rw [hpred]

theorem get_task_by_id_some_id (s : Store) (task_id : Nat) (t : EvalTask)
    (h : get_task_by_id s task_id = some t) : t.id = task_id := by
  have := List.find?_some h
  simpa using this

theorem map_fix_eq_self {α : Type} (l : List α) (f : α → α)
    (h : ∀ a ∈ l, f a = a) : l.map f = l := by
  induction l with
  | nil => rfl
  | cons a tl ih =>
    simp only [List.map_cons, h a (List.mem_cons_self a tl)]
    rw [ih (fun b hb => h b (List.mem_cons_of_mem a hb))]

theorem update_task_status_absent (s : Store) (task_id : Nat) (p : TaskPatch)
    (h : get_task_by_id s task_id = none) :
    update_task_status s task_id p = s := by
  unfold get_task_by_id at h
  rw [List.find?_eq_none] at h
  unfold update_task_status
  rw [map_fix_eq_self]
  intro t ht
  have : ¬ t.id = task_id := by simpa using h t ht
  simp [this]

theorem keepsPopulated_refl (t : EvalTask) : keepsPopulated t t :=
  ⟨id, id, id, id, id, id, id⟩

theorem keepsPopulated_trans {t u v : EvalTask} (h1 : keepsPopulated t u)
    (h2 : keepsPopulated u v) : keepsPopulated t v :=
  ⟨h2.1 ∘ h1.1, h2.2.1 ∘ h1.2.1, h2.2.2.1 ∘ h1.2.2.1,
   h2.2.2.2.1 ∘ h1.2.2.2.1, h2.2.2.2.2.1 ∘ h1.2.2.2.2.1,
   h2.2.2.2.2.2.1 ∘ h1.2.2.2.2.2.1, h2.2.2.2.2.2.2 ∘ h1.2.2.2.2.2.2⟩

theorem keepsPopulated_applyPatch (p : TaskPatch) (t : EvalTask) :
    keepsPopulated t (applyPatch p t) := by
  unfold keepsPopulated applyPatch
  refine ⟨?_, ?_, ?_, ?_, ?_, ?_, ?_⟩ <;> intro h <;> simp only [] <;>
    split <;> simp_all

-- ============================================================
-- Claim theorems
-- ============================================================

/-- C8: `update_task_status` is a sparse patch.  Only columns supplied as
non-`None` are written; every omitted column — and every column the operation
cannot touch at all — keeps exactly its prior stored value, and rows with a
different id are untouched. -/
theorem update_sparse_patch (s : Store) (task_id : Nat) (p : TaskPatch)
    (t : EvalTask) (h : get_task_by_id s task_id = some t) :
    get_task_by_id (update_task_status s task_id p) task_id = some (applyPatch p t) ∧
    (applyPatch p t).id = t.id ∧
    (applyPatch p t).document_id = t.document_id ∧
    (applyPatch p t).start_page = t.start_page ∧
    (applyPatch p t).end_page = t.end_page ∧
    (applyPatch p t).llm_uri = t.llm_uri ∧
    (applyPatch p t).num_test_cases = t.num_test_cases ∧
    (applyPatch p t).created_at = t.created_at ∧
    (p.status = none → (applyPatch p t).status = t.status) ∧
    (p.progress = none → (applyPatch p t).progress = t.progress) ∧
    (p.started_at = none → (applyPatch p t).started_at = t.started_at) ∧
    (p.completed_at = none → (applyPatch p t).completed_at = t.completed_at) ∧
    (p.result_path = none → (applyPatch p t).result_path = t.result_path) ∧
    (p.dataset_path = none → (applyPatch p t).dataset_path = t.dataset_path) ∧
    (p.avg_score = none → (applyPatch p t).avg_score = t.avg_score) ∧
    (p.metrics_summary = none → (applyPatch p t).metrics_summary = t.metrics_summary) ∧
    (p.error = none → (applyPatch p t).error = t.error) ∧
    (∀ u ∈ s.tasks, u.id ≠ task_id → u ∈ (update_task_status s task_id p).tasks) := by
  have hid := get_task_by_id_some_id s task_id t h
  refine ⟨?_, rfl, rfl, rfl, rfl, rfl, rfl, rfl,
    ?_, ?_, ?_, ?_, ?_, ?_, ?_, ?_, ?_, ?_⟩
  · rw [get_task_by_id_update, h, Option.map_some']
    simp [hid]
  · intro hp; simp [applyPatch, hp]
  · intro hp; simp [applyPatch, hp]
  · intro hp; simp [applyPatch, hp]
  · intro hp; simp [applyPatch, hp]
  · intro hp; simp [applyPatch, hp]
  · intro hp; simp [applyPatch, hp]
  · intro hp; simp [applyPatch, hp]
  · intro hp; simp [applyPatch, hp]
  · intro hp; simp [applyPatch, hp]
  · intro u hu hne
    have heq : (if u.id = task_id then applyPatch p u else u) = u := if_neg hne
    show u ∈ s.tasks.map (fun v => if v.id = task_id then applyPatch p v else v)
    rw [List.mem_map]
    exact ⟨u, hu, heq⟩

theorem update_sparse_patch_wit :
    get_task_by_id (update_task_status doneStore 1 lonePatch) 1
        = some (applyPatch lonePatch doneTask) ∧
      (applyPatch lonePatch doneTask).started_at = doneTask.started_at := by
  obtain ⟨hget, -, -, -, -, -, -, -, -, -, hstart, -, -, -, -, -, -, -⟩ :=
    update_sparse_patch doneStore 1 lonePatch doneTask (by decide)
  exact ⟨hget, hstart (by decide)⟩

/-- C10: `update_task_status` interprets an absent (`None`) argument as
"leave unchanged", so no sequence of update calls can clear a populated
nullable column of an existing task. -/
theorem populated_fields_never_cleared (ops : List (Nat × TaskPatch)) (s : Store)
    (task_id : Nat) (t : EvalTask) (h : get_task_by_id s task_id = some t) :
    ∃ t', get_task_by_id (applyUpdates ops s) task_id = some t' ∧
      keepsPopulated t t' := by
  induction ops generalizing s t with
  | nil => exact ⟨t, h, keepsPopulated_refl t⟩
  | cons op rest ih =>
    have hstep : get_task_by_id (update_task_status s op.1 op.2) task_id
        = some (if t.id = op.1 then applyPatch op.2 t else t) := by
      rw [get_task_by_id_update, h, Option.map_some']
    obtain ⟨t', ht', hk⟩ := ih (update_task_status s op.1 op.2)
      (if t.id = op.1 then applyPatch op.2 t else t) hstep
    refine ⟨t', ht', keepsPopulated_trans ?_ hk⟩
    by_cases hid : t.id = op.1
    · simpa [hid] using keepsPopulated_applyPatch op.2 t
    · simpa [hid] using keepsPopulated_refl t

theorem populated_fields_never_cleared_wit :
    ∃ t', get_task_by_id
        (applyUpdates [(1, lonePatch), (1, demotePatch)] doneStore) 1
        = some t' ∧ keepsPopulated doneTask t' :=
  populated_fields_never_cleared [(1, lonePatch), (1, demotePatch)] doneStore 1
    doneTask (by decide)

/-- C7 counterexample: the store-layer `update_task_status` on an id with no
task does not fail — its UPDATE touches zero rows and the call returns
normally, a silent no-op. -/
theorem store_update_missing_noop_cx :
    get_task_by_id doneStore 99 = none ∧
      update_task_status doneStore 99 lonePatch = doneStore := by decide

/-- C7 amended: an update through the API route fails with 404 when the task
id is absent and leaves the store unchanged; the store-layer
`update_task_status` on an absent id silently succeeds, also leaving the
store unchanged. -/
theorem update_missing_task_behavior (fromIso : String → Option Nat) (s : Store)
    (task_id : Nat) (req : UpdateTaskRequest) (p : TaskPatch)
    (h : get_task_by_id s task_id = none) :
    update_task_route fromIso s task_id req
        = (.error (.notFound "task not found"), s) ∧
      update_task_status s task_id p = s := by
  refine ⟨?_, update_task_status_absent s task_id p h⟩
  simp [update_task_route, h]

theorem update_missing_task_behavior_wit :
    update_task_route wIso doneStore 99 {}
        = (.error (.notFound "task not found"), doneStore) ∧
      update_task_status doneStore 99 lonePatch = doneStore :=
  update_missing_task_behavior wIso doneStore 99 {} lonePatch (by decide)

/-- C2 counterexample: a `completed` task is not immutable — an update setting
its status back to `running` is applied, visibly changing the stored row. -/
theorem terminal_demotion_cx :
    doneTask.status = .completed ∧
      get_task_by_id (update_task_status doneStore 1 demotePatch) 1
        = some { doneTask with status := .running } ∧
      update_task_status doneStore 1 demotePatch ≠ doneStore := by decide

/-- C2 amended: neither the store layer nor the update route checks the prior
status; an update that sets a terminal task's status back to `running` is
applied like any other sparse patch, overwriting the stored row. -/
theorem terminal_update_applied (s : Store) (task_id : Nat) (p : TaskPatch)
    (t : EvalTask) (hget : get_task_by_id s task_id = some t)
    (hterm : t.status = .completed ∨ t.status = .failed)
    (hp : p.status = some .running) :
    get_task_by_id (update_task_status s task_id p) task_id
        = some (applyPatch p t) ∧
      (applyPatch p t).status = .running ∧ applyPatch p t ≠ t := by
  have hid := get_task_by_id_some_id s task_id t hget
  have hstat : (applyPatch p t).status = .running := by simp [applyPatch, hp]
  refine ⟨?_, hstat, ?_⟩
  · rw [get_task_by_id_update, hget, Option.map_some']
    simp [hid]
  · intro he
    rw [he] at hstat
    rcases hterm with h | h <;> rw [h] at hstat <;> simp at hstat

theorem terminal_update_applied_wit :
    get_task_by_id (update_task_status doneStore 1 demotePatch) 1
        = some (applyPatch demotePatch doneTask) ∧
      (applyPatch demotePatch doneTask).status = .running ∧
      applyPatch demotePatch doneTask ≠ doneTask :=
  terminal_update_applied doneStore 1 demotePatch doneTask (by decide)
    (Or.inl (by decide)) (by decide)

theorem validSelect_selectFirstOldest : ValidSelect selectFirstOldest := by
  constructor
  · intro s t h
    unfold selectFirstOldest at h
    have hmem : t ∈ (s.tasks.filter
        (fun u => decide (u.status = .pending))).argmin (·.created_at) :=
      Option.mem_def.2 h
    have ht := List.argmin_mem hmem
    rw [List.mem_filter] at ht
    refine ⟨ht.1, by simpa using ht.2, ?_⟩
    intro u hu hupend
    have hu' : u ∈ s.tasks.filter (fun v => decide (v.status = .pending)) :=
      List.mem_filter.2 ⟨hu, by simp [hupend]⟩
    exact List.le_of_mem_argmin hu' hmem
  · intro s hnone u hu hupend
    unfold selectFirstOldest at hnone
    have hnil : s.tasks.filter (fun v => decide (v.status = .pending)) = [] :=
      List.argmin_eq_none.1 hnone
    have : u ∈ ([] : List EvalTask) :=
      hnil ▸ List.mem_filter.2 ⟨hu, by simp [hupend]⟩
    simp at this

theorem claimWrite_tasks (s : Store) (i n : Nat) :
    (claimWrite s i n).tasks
      = s.tasks.map (fun t => if t.id = i then claimedRow t n else t) := rfl

theorem sel_eq_of_unique (sel : Store → Option EvalTask) (hv : ValidSelect sel)
    (s : Store) (t : EvalTask) (hmem : t ∈ s.tasks)
    (hpend : t.status = .pending)
    (huniq : ∀ u ∈ s.tasks, u.status = .pending →
      u.created_at ≤ t.created_at → u = t) :
    sel s = some t := by
  cases h : sel s with
  | none => exact absurd hpend (hv.2 s h t hmem)
  | some u =>
    obtain ⟨umem, upend, umin⟩ := hv.1 s u h
    rw [huniq u umem upend (umin t hmem hpend)]

/-- C1 (code bug): with a single pending task and two workers whose SELECTs
both run before either UPDATE — an interleaving the source permits, since the
SELECT runs outside the write transaction and the UPDATE re-checks nothing but
the id — both `claim_next_pending_task` calls return the same task id 1 as
claimed and Running, where the spec requires exactly one claimant. -/
theorem race_both_claim_same_task :
    raceReturn1 = some (claimedRow soloTask 11) ∧
      raceReturn2 = some (claimedRow soloTask 21) ∧
      (claimedRow soloTask 11).id = 1 ∧ (claimedRow soloTask 21).id = 1 ∧
      (claimedRow soloTask 11).status = .running ∧
      (claimedRow soloTask 21).status = .running ∧
      get_task_by_id raceStoreAfter 1 = some (claimedRow soloTask 20) := by
  decide

/-- C3 counterexample: with two pending rows tied on `created_at`, both rows
satisfy everything the claim query
(`... ORDER BY created_at ASC LIMIT 1`, no id key) constrains about the
selected row, so an id-ascending tie-break — and with it determinism of the
selection — is not guaranteed by the code. -/
theorem claim_tie_not_deterministic_cx :
    IsOldestPending tieStore tieTask1 ∧ IsOldestPending tieStore tieTask2 ∧
      tieTask1.id = 1 ∧ tieTask2.id = 2 ∧
      tieTask1.created_at = tieTask2.created_at ∧ tieTask1 ≠ tieTask2 := by
  decide

/-- C3 amended: the claim query selects a pending row of minimal `created_at`
(no tie-break is specified); when the three pending tasks have distinct
creation times t1 < t2 < t3, three sequential claims return them in exactly
that order. -/
theorem claim_fifo_distinct_times (sel : Store → Option EvalTask)
    (hv : ValidSelect sel) (s : Store) (a b c : EvalTask)
    (hs : s.tasks = [a, b, c])
    (ha : a.status = .pending) (hb : b.status = .pending)
    (hc : c.status = .pending)
    (hab : a.created_at < b.created_at) (hbc : b.created_at < c.created_at)
    (iab : a.id ≠ b.id) (iac : a.id ≠ c.id) (ibc : b.id ≠ c.id)
    (n1 n1' n2 n2' n3 n3' : Nat) :
    ∃ s1 s2 s3,
      claim_next_pending_task sel s n1 n1' = (some (claimedRow a n1'), s1) ∧
      claim_next_pending_task sel s1 n2 n2' = (some (claimedRow b n2'), s2) ∧
      claim_next_pending_task sel s2 n3 n3' = (some (claimedRow c n3'), s3) ∧
      (claimedRow a n1').id = a.id ∧ (claimedRow b n2').id = b.id ∧
      (claimedRow c n3').id = c.id := by
  have iba : b.id ≠ a.id := Ne.symm iab
  have ica : c.id ≠ a.id := Ne.symm iac
  have icb : c.id ≠ b.id := Ne.symm ibc
  have hsel1 : sel s = some a := by
    apply sel_eq_of_unique sel hv s a (by rw [hs]; simp) ha
    intro u hu hup hle
    rw [hs] at hu
    simp only [List.mem_cons, List.mem_singleton] at hu
    rcases hu with rfl | rfl | hu
    · rfl
    · omega
    · simp at hu
      subst hu
      omega
  have hs1 : (claimWrite s a.id n1).tasks = [claimedRow a n1, b, c] := by
    simp [claimWrite, hs, iba, ica]
  have hsel2 : sel (claimWrite s a.id n1) = some b := by
    apply sel_eq_of_unique sel hv _ b (by rw [hs1]; simp) hb
    intro u hu hup hle
    rw [hs1] at hu
    simp only [List.mem_cons, List.mem_singleton] at hu
    rcases hu with rfl | rfl | hu
    · simp at hup
    · rfl
    · simp at hu
      subst hu
      omega
  have hs2 : (claimWrite (claimWrite s a.id n1) b.id n2).tasks
      = [claimedRow a n1, claimedRow b n2, c] := by
    rw [claimWrite_tasks, hs1]
    simp [iab, icb]
  have hsel3 : sel (claimWrite (claimWrite s a.id n1) b.id n2) = some c := by
    apply sel_eq_of_unique sel hv _ c (by rw [hs2]; simp) hc
    intro u hu hup hle
    rw [hs2] at hu
    simp only [List.mem_cons, List.mem_singleton] at hu
    rcases hu with rfl | rfl | hu
    · simp at hup
    · simp at hup
    · simp at hu
      subst hu
      rfl
  refine ⟨claimWrite s a.id n1,
    claimWrite (claimWrite s a.id n1) b.id n2,
    claimWrite (claimWrite (claimWrite s a.id n1) b.id n2) c.id n3,
    ?_, ?_, ?_, rfl, rfl, rfl⟩
  · simp [claim_next_pending_task, hsel1]
  · simp [claim_next_pending_task, hsel2]
  · simp [claim_next_pending_task, hsel3]

theorem claim_fifo_distinct_times_wit :
    ∃ s1 s2 s3,
      claim_next_pending_task selectFirstOldest fifoStore 10 11
          = (some (claimedRow fifoA 11), s1) ∧
      claim_next_pending_task selectFirstOldest s1 20 21
          = (some (claimedRow fifoB 21), s2) ∧
      claim_next_pending_task selectFirstOldest s2 30 31
          = (some (claimedRow fifoC 31), s3) ∧
      (claimedRow fifoA 11).id = fifoA.id ∧
      (claimedRow fifoB 21).id = fifoB.id ∧
      (claimedRow fifoC 31).id = fifoC.id :=
  claim_fifo_distinct_times selectFirstOldest validSelect_selectFirstOldest
    fifoStore fifoA fifoB fifoC (by decide) (by decide) (by decide) (by decide)
    (by decide) (by decide) (by decide) (by decide) (by decide) 10 11 20 21 30 31

/-- C4 counterexample: the source computes `datetime.now()` twice — once for
the UPDATE and once for the returned object — so with clock readings 5 and 7
the returned task carries `started_at = 7` while the committed row holds
`started_at = 5`: the returned task does not equal the committed row. -/
theorem claim_return_skew_cx :
    (claim_next_pending_task selectFirstOldest soloStore 5 7).1
        = some (claimedRow soloTask 7) ∧
      (claimedRow soloTask 7).started_at = some 7 ∧
      get_task_by_id (claim_next_pending_task selectFirstOldest soloStore 5 7).2 1
        = some (claimedRow soloTask 5) ∧
      (claimedRow soloTask 5).started_at = some 5 ∧
      (claim_next_pending_task selectFirstOldest soloStore 5 7).1
        ≠ some (claimedRow soloTask 5) := by
  decide

/-- C4 amended: on a successful claim the returned task matches the committed
row in `status = Running` and `progress = 0` and in every other column of the
selected row, but its `startedAt` is a second, separately recomputed clock
reading `n2`, while the committed row persists the first reading `n1`. -/
theorem claim_return_post_transition (sel : Store → Option EvalTask)
    (hv : ValidSelect sel) (s : Store) (n1 n2 : Nat) (r : EvalTask) (s' : Store)
    (h : claim_next_pending_task sel s n1 n2 = (some r, s')) :
    r.status = .running ∧ r.progress = 0 ∧ r.started_at = some n2 ∧
      ∃ row, row ∈ s.tasks ∧ row.status = .pending ∧ r = claimedRow row n2 ∧
        claimedRow row n1 ∈ s'.tasks ∧
        (claimedRow row n1).status = .running ∧
        (claimedRow row n1).progress = 0 ∧
        (claimedRow row n1).started_at = some n1 := by
  cases hsel : sel s with
  | none => simp [claim_next_pending_task, hsel] at h
  | some row =>
    obtain ⟨hmem, hpend, -⟩ := hv.1 s row hsel
    simp only [claim_next_pending_task, hsel] at h
    obtain ⟨hr, hs'⟩ := Prod.mk.injEq .. ▸ h
    have hr' : r = claimedRow row n2 := (Option.some.injEq .. ▸ hr).symm
    subst hr'
    refine ⟨rfl, rfl, rfl, row, hmem, hpend, rfl, ?_, rfl, rfl, rfl⟩
    rw [← hs', claimWrite_tasks]
    have hm := List.mem_map_of_mem
      (fun t => if t.id = row.id then claimedRow t n1 else t) hmem
    simpa using hm

theorem claim_return_post_transition_wit :
    (claimedRow soloTask 7).status = .running ∧
      (claimedRow soloTask 7).progress = 0 ∧
      (claimedRow soloTask 7).started_at = some 7 ∧
      ∃ row, row ∈ soloStore.tasks ∧ row.status = .pending ∧
        claimedRow soloTask 7 = claimedRow row 7 ∧
        claimedRow row 5 ∈ (claim_next_pending_task selectFirstOldest soloStore 5 7).2.tasks ∧
        (claimedRow row 5).status = .running ∧
        (claimedRow row 5).progress = 0 ∧
        (claimedRow row 5).started_at = some 5 :=
  claim_return_post_transition selectFirstOldest validSelect_selectFirstOldest
    soloStore 5 7 (claimedRow soloTask 7)
    (claim_next_pending_task selectFirstOldest soloStore 5 7).2 (by decide)

/-- C5 (code bug): the route's page validation defaults the bounds with
Python `or` (`start = req.start_page or 1`), so a supplied `start_page = 0` —
which violates `1 ≤ startPage` and should be rejected as an invalid page
range — is validated as if it were 1, and a task row with `start_page = 0` is
inserted. -/
theorem page_zero_accepted :
    (create_task_route "llm" 50 c5Store c5Req 3 true).1 = .ok 1 ∧
      c5Req.start_page = some 0 ∧ c5Doc.total_pages = 20 ∧
      get_task_by_id (create_task_route "llm" 50 c5Store c5Req 3 true).2 1
        = some (newTask 1 1 (some 0) (some 10) "llm" 50 3) ∧
      (newTask 1 1 (some 0) (some 10) "llm" 50 3).start_page = some 0 :=
  ⟨rfl, rfl, rfl, by decide, rfl⟩

/-- C9 counterexample: when the eval-count bump raises, `create_task` does not
succeed — the exception propagates to the creator — even though the task row
was already committed. -/
theorem create_bump_failure_cx :
    (create_task c5Store 1 "llm" 50 none none 4 false).1
        = .error .storeFailure ∧
      newTask 1 1 none none "llm" 50 4
        ∈ (create_task c5Store 1 "llm" 50 none none 4 false).2.tasks :=
  ⟨rfl, by decide⟩

/-- C9 amended: on a successful bump, `create_task` returns the new id with
the task inserted in `Pending` and the owning document's `eval_count`
incremented; when the bump fails, the failure propagates out of `create_task`
(the operation raises instead of succeeding), with the pending task row
already committed and no document touched. -/
theorem create_task_bump_behavior (s : Store) (document_id : Nat)
    (llm : String) (num : Nat) (sp ep : Option Int) (now : Nat) :
    ((create_task s document_id llm num sp ep now true).1 = .ok s.next_task_id ∧
      (newTask s.next_task_id document_id sp ep llm num now).status = .pending ∧
      newTask s.next_task_id document_id sp ep llm num now
        ∈ (create_task s document_id llm num sp ep now true).2.tasks ∧
      (∀ d ∈ s.documents, d.id = document_id →
        { d with eval_count := d.eval_count + 1 }
          ∈ (create_task s document_id llm num sp ep now true).2.documents)) ∧
    ((create_task s document_id llm num sp ep now false).1
        = .error .storeFailure ∧
      newTask s.next_task_id document_id sp ep llm num now
        ∈ (create_task s document_id llm num sp ep now false).2.tasks ∧
      (create_task s document_id llm num sp ep now false).2.documents
        = s.documents) := by
  refine ⟨⟨rfl, rfl, ?_, ?_⟩, rfl, ?_, rfl⟩
  · show _ ∈ (increment_eval_count _ document_id).tasks
    simp [increment_eval_count, create_task]
  · intro d hd hid
    show _ ∈ (increment_eval_count _ document_id).documents
    simp only [increment_eval_count, create_task]
    exact List.mem_map.2 ⟨d, hd, by simp [hid]⟩
  · show _ ∈ _ ++ [newTask s.next_task_id document_id sp ep llm num now]
    simp

theorem create_task_bump_behavior_wit :
    (create_task c5Store 1 "llm" 50 none none 4 true).1 = .ok 1 ∧
      { c5Doc with eval_count := c5Doc.eval_count + 1 }
        ∈ (create_task c5Store 1 "llm" 50 none none 4 true).2.documents := by
  have h := create_task_bump_behavior c5Store 1 "llm" 50 none none 4
  exact ⟨h.1.1, h.1.2.2.2 c5Doc (by decide) rfl⟩

/-- C6: re-uploading byte-identical content is idempotent.  Whatever a first
successful upload returned, a second upload of the same bytes (under any
PDF-suffixed name) is answered from the digest lookup: it reports the
distinct "already exists" outcome carrying the same document id, leaves the
store — rows, `eval_count`, every field — unchanged, and writes no file. -/
theorem dedup_idempotent (hashFn : List Nat → String)
    (pageCount : List Nat → Option Nat) (maxBytes : Nat) (s : Store)
    (fn fn2 : String) (content : List Nat) (now now2 : Nat) (o1 : PutOutcome)
    (s1 : Store) (w1 : List String)
    (h1 : create_document_route hashFn pageCount maxBytes s fn content now
        = (.ok o1, s1, w1))
    (h2 : isPdfFilename fn2 = true) :
    create_document_route hashFn pageCount maxBytes s1 fn2 content now2
      = (.ok (.alreadyExists o1.docId), s1, []) := by
  unfold create_document_route at h1
  split at h1
  · exact absurd h1 (by simp)
  split at h1
  · exact absurd h1 (by simp)
  case isFalse hpdf hsize =>
  cases hhash : get_document_by_hash s (hashFn content) with
  | some d =>
    simp only [hhash] at h1
    have hs : s1 = s := (congrArg (fun p => p.2.1) h1).symm
    have ho1 : o1 = PutOutcome.alreadyExists d.id :=
      (Except.ok.inj (congrArg (fun p => p.1) h1)).symm
    subst hs ho1
    unfold create_document_route
    simp [h2, hsize, hhash, PutOutcome.docId]
  | none =>
    simp only [hhash] at h1
    cases hpc : pageCount content with
    | none =>
      simp only [hpc] at h1
      exact absurd h1 (by simp)
    | some pages =>
      simp only [hpc, create_document] at h1
      have hs : s1 = ({ s with
          documents := s.documents ++
            [{ id := s.next_document_id, filename := fn,
               file_path := safe_filename fn (hashFn content),
               file_size := content.length, total_pages := pages,
               file_hash := hashFn content, uploaded_at := now,
               eval_count := 0 }],
          next_document_id := s.next_document_id + 1 } : Store) :=
        (congrArg (fun p => p.2.1) h1).symm
      have ho1 : o1 = PutOutcome.created s.next_document_id :=
        (Except.ok.inj (congrArg (fun p => p.1) h1)).symm
      subst hs ho1
      unfold get_document_by_hash at hhash
      unfold create_document_route
      simp [h2, hsize, get_document_by_hash, List.find?_append, hhash,
        PutOutcome.docId]

theorem dedup_idempotent_wit :
    create_document_route wHash wPages 100 {} "a.pdf" [1, 2] 9
        = (.ok (.created 1), wStore1, ["a.pdf_h2"]) ∧
      create_document_route wHash wPages 100 wStore1 "b.pdf" [1, 2] 10
        = (.ok (.alreadyExists (PutOutcome.created 1).docId), wStore1, []) :=
  ⟨by decide, dedup_idempotent wHash wPages 100 {} "a.pdf" "b.pdf" [1, 2] 9 10
    (.created 1) wStore1 ["a.pdf_h2"] (by decide) (by decide)⟩
